import Mathlib

set_option maxRecDepth 8000

/-! Verification development for the ai-story CLI (module fullText1): a
shallow embedding of the abstract file codec, the Gemini configuration
resolver, the pricing table, the abstract subcommand flow, and the story
chapter loop, translated from the Go sources. Go strings and byte slices
are modeled as lists of characters; the Go conversions between string and
byte slice are byte-for-byte copies and are modeled as the identity. -/

/-- Record persisted by the abstract file codec
(fullText1/pkg/abstract/file/files.go, type AbstractOutputFile): the
abstract text and the thought signature, both Go strings. -/
structure AbstractOutputFile where
  Abstract : List Char
  ThoughtSignature : List Char
deriving DecidableEq

/-- One character of a double-quoted scalar as emitted by the model of
yaml.Marshal: backslash and double quote are escaped with a backslash,
every other character stands for itself. -/
def escChar (c : Char) : List Char :=
  if c = '\\' ∨ c = '"' then ['\\', c] else [c]

/-- Escapes a whole string for a double-quoted scalar. -/
def esc : List Char → List Char
  | [] => []
  | c :: cs => escChar c ++ esc cs

/-- Scans a double-quoted scalar up to its closing quote, undoing the
backslash escapes, and returns the decoded text together with the input
that follows the closing quote. Fails when the input ends before a
closing quote is found. -/
def scanQuoted : List Char → Option (List Char × List Char)
  | [] => none
  | c :: rest =>
    if c = '"' then some ([], rest)
    else if c = '\\' then
      match rest with
      | [] => none
      | d :: rest2 =>
        match scanQuoted rest2 with
        | none => none
        | some (s, r) => some (d :: s, r)
    else
      match scanQuoted rest with
      | none => none
      | some (s, r) => some (c :: s, r)

/-- Strips an exact literal from the front of the input, returning the
remainder, or fails. -/
def dropLiteral : List Char → List Char → Option (List Char)
  | [], s => some s
  | _ :: _, [] => none
  | l :: ls, c :: cs => if c = l then dropLiteral ls cs else none

/-- Model of yaml.Marshal applied to an AbstractOutputFile value: a two
line YAML document with the field tags of the Go struct. The
thought_signature field carries the omitempty option in the Go struct
tags, so it is omitted when the signature string is empty. The scalar
values are rendered in the double-quoted style. -/
def yamlMarshal (o : AbstractOutputFile) : List Char :=
  "abstract: \"".data ++ esc o.Abstract ++ "\"\n".data ++
    (if o.ThoughtSignature = [] then [] else
      "thought_signature: \"".data ++ esc o.ThoughtSignature ++ "\"\n".data)

/-- Model of yaml.Unmarshal into an AbstractOutputFile value: accepts the
documents produced by yamlMarshal (with or without the omitted
thought_signature field) and rejects everything else. -/
def yamlUnmarshal (content : List Char) : Option AbstractOutputFile :=
  match dropLiteral "abstract: \"".data content with
  | none => none
  | some rest =>
    match scanQuoted rest with
    | none => none
    | some (a, rest2) =>
      match rest2 with
      | '\n' :: rest3 =>
        if rest3 = [] then some { Abstract := a, ThoughtSignature := [] }
        else
          match dropLiteral "thought_signature: \"".data rest3 with
          | none => none
          | some rest4 =>
            match scanQuoted rest4 with
            | none => none
            | some (t, rest5) =>
              if rest5 = ['\n'] then some { Abstract := a, ThoughtSignature := t }
              else none
      | _ => none

/-- Whitespace characters skipped between JSON tokens by encoding/json. -/
def jsonWs (c : Char) : Bool :=
  c = ' ' || c = '\t' || c = '\n' || c = '\r'

/-- Skips JSON whitespace. -/
def skipWs : List Char → List Char
  | [] => []
  | c :: cs => if jsonWs c then skipWs cs else c :: cs

/-- Parses the members of a JSON object after the opening brace, folding
the two known keys of AbstractOutputFile into the accumulator and
ignoring unknown keys, as encoding/json does. Only string values appear
in the model because both target fields are strings. Returns the
accumulated record and the input after the closing brace. -/
def parseMembers : Nat → List Char → AbstractOutputFile → Option (AbstractOutputFile × List Char)
  | 0, _, _ => none
  | fuel + 1, s, acc =>
    match skipWs s with
    | '\x7d' :: rest => some (acc, rest)
    | '"' :: rest =>
      match scanQuoted rest with
      | none => none
      | some (key, rest2) =>
        match skipWs rest2 with
        | ':' :: rest3 =>
          match skipWs rest3 with
          | '"' :: rest4 =>
            match scanQuoted rest4 with
            | none => none
            | some (value, rest5) =>
              let acc2 :=
                if key = "abstract".data then { acc with Abstract := value }
                else if key = "thought_signature".data then { acc with ThoughtSignature := value }
                else acc
              match skipWs rest5 with
              | ',' :: rest6 => parseMembers fuel rest6 acc2
              | '\x7d' :: rest6 => some (acc2, rest6)
              | _ => none
          | _ => none
        | _ => none
    | _ => none

/-- Model of json.Unmarshal into an AbstractOutputFile value: a JSON
object must begin with an opening brace after optional whitespace (so in
particular the plain-scalar YAML documents written by the codec are
rejected), missing keys keep the zero value of the field, and trailing
data after the closing brace is rejected. -/
def jsonUnmarshal (content : List Char) : Option AbstractOutputFile :=
  match skipWs content with
  | '\x7b' :: rest =>
    match parseMembers (rest.length + 1) rest { Abstract := [], ThoughtSignature := [] } with
    | none => none
    | some (acc, rest2) => if skipWs rest2 = [] then some acc else none
  | _ => none

/-- Model of strings.ToLower restricted to the ASCII range, which is the
only range the extension comparisons in the codec can match. -/
def strToLower (s : List Char) : List Char :=
  s.map Char.toLower

/-- Model of strings.HasSuffix. -/
def hasSuffix (s suffixChars : List Char) : Bool :=
  List.isSuffixOf suffixChars s

/-- Body of ReadAbstractFile (files.go lines 34 to 59) after the file was
read successfully: dispatch on the lowercased file extension, attempt the
structured parse for recognized extensions, and fall back to the raw file
content with an empty thought signature when the extension is not
recognized or the parse fails. Returns the pair of the abstract content
and the thought signature bytes. -/
def ReadAbstractFileContent (abstractFilePath : List Char) (abstractContentBytes : List Char) :
    List Char × List Char :=
  if hasSuffix (strToLower abstractFilePath) ".yaml".data
      || hasSuffix (strToLower abstractFilePath) ".yml".data then
    match yamlUnmarshal abstractContentBytes with
    | none => (abstractContentBytes, [])
    | some abstractData => (abstractData.Abstract, abstractData.ThoughtSignature)
  else if hasSuffix (strToLower abstractFilePath) ".json".data then
    match jsonUnmarshal abstractContentBytes with
    | none => (abstractContentBytes, [])
    | some abstractData => (abstractData.Abstract, abstractData.ThoughtSignature)
  else (abstractContentBytes, [])

/-- Model of ReadAbstractFile (files.go lines 28 to 60). The only failure
point of the Go function is os.ReadFile, modeled by the readFileResult
argument: none models a read error, some bytes models a readable file
with the given content. -/
def ReadAbstractFile (abstractFilePath : List Char) (readFileResult : Option (List Char)) :
    Option (List Char × List Char) :=
  match readFileResult with
  | none => none
  | some abstractContentBytes => some (ReadAbstractFileContent abstractFilePath abstractContentBytes)

/-- Model of WriteAbstractFile (files.go lines 64 to 79): the record is
always serialized to YAML regardless of the extension of the output path,
and the function returns the bytes written to the file. -/
def WriteAbstractFile (abstract thoughtSignature : List Char) : List Char :=
  yamlMarshal { Abstract := abstract, ThoughtSignature := thoughtSignature }

/-- Default model name (fullText1/pkg/aiEndpoint/gemini.go line 15). -/
def DefaultGeminiModel : String := "gemini-2.5-flash"

/-- Configuration file content (gemini.go, type GeminiConfig). -/
structure GeminiConfig where
  APIKey : String
  ModelName : String
  ThinkingLevel : String
deriving DecidableEq

/-- Resolved configuration (gemini.go, type GeminiConfigDetails). The Err
flag is true exactly when the Go Err field is a non-nil error. -/
structure GeminiConfigDetails where
  APIKey : String
  ModelName : String
  ThinkingLevel : String
  Err : Bool
deriving DecidableEq

/-- Final checks at the end of LoadGeminiConfigWithFallback (gemini.go
lines 184 to 192): a still-empty API key is an error, a still-empty model
name falls back to the default. -/
def finalizeDetails (details : GeminiConfigDetails) : GeminiConfigDetails :=
  if details.APIKey = "" then { details with Err := true }
  else if details.ModelName = "" then { details with ModelName := DefaultGeminiModel }
  else details

/-- Model of LoadGeminiConfigWithFallback (gemini.go lines 139 to 195).
The file system and environment are passed explicitly: loadResult is the
outcome of LoadGeminiConfig on the given path (none models a read or
parse failure) and envGeminiApiKey is the value of the GEMINI_API_KEY
environment variable, with the empty string meaning unset, exactly as
os.Getenv reports it. -/
def LoadGeminiConfigWithFallback (configPath : String) (loadResult : Option GeminiConfig)
    (envGeminiApiKey : String) : GeminiConfigDetails :=
  if configPath ≠ "" then
    match loadResult with
    | none =>
      if envGeminiApiKey = "" then
        { APIKey := "", ModelName := "", ThinkingLevel := "", Err := true }
      else
        finalizeDetails
          { APIKey := envGeminiApiKey, ModelName := DefaultGeminiModel, ThinkingLevel := "", Err := false }
    | some geminiConfig =>
      if geminiConfig.APIKey = "" then
        if envGeminiApiKey = "" then
          { APIKey := "", ModelName := geminiConfig.ModelName,
            ThinkingLevel := geminiConfig.ThinkingLevel, Err := true }
        else
          finalizeDetails
            { APIKey := envGeminiApiKey,
              ModelName := if geminiConfig.ModelName = "" then DefaultGeminiModel else geminiConfig.ModelName,
              ThinkingLevel := geminiConfig.ThinkingLevel, Err := false }
      else
        finalizeDetails
          { APIKey := geminiConfig.APIKey,
            ModelName := if geminiConfig.ModelName = "" then DefaultGeminiModel else geminiConfig.ModelName,
            ThinkingLevel := geminiConfig.ThinkingLevel, Err := false }
  else
    if envGeminiApiKey = "" then
      { APIKey := "", ModelName := "", ThinkingLevel := "", Err := true }
    else
      finalizeDetails
        { APIKey := envGeminiApiKey, ModelName := DefaultGeminiModel, ThinkingLevel := "", Err := false }

/-- The API key obtainable from the config file alone: empty when no path
was given, when the file failed to load, or when the loaded file carries
an empty api_key field. Used to state the error condition of the
resolver. -/
def configFileAPIKey (configPath : String) (loadResult : Option GeminiConfig) : String :=
  if configPath = "" then ""
  else
    match loadResult with
    | none => ""
    | some geminiConfig => geminiConfig.APIKey

/-- Pricing constants per one million tokens (gemini.go lines 18 to 46),
modeled as exact rationals. -/
def Gemini25ProInputPriceLowTierPerMillion : ℚ := 1.25

def Gemini25ProOutputPriceLowTierPerMillion : ℚ := 10.00

def Gemini25ProInputPriceHighTierPerMillion : ℚ := 2.50

def Gemini25ProOutputPriceHighTierPerMillion : ℚ := 15.00

def Gemini3ProPreviewInputPriceLowTierPerMillion : ℚ := 2.00

def Gemini3ProPreviewOutputPriceLowTierPerMillion : ℚ := 12.00

def Gemini3ProPreviewInputPriceHighTierPerMillion : ℚ := 4.00

def Gemini3ProPreviewOutputPriceHighTierPerMillion : ℚ := 18.00

def Gemini25ProPromptTokenThreshold : Int := 200000

def Gemini25FlashInputPricePerMillion : ℚ := 0.30

def Gemini25FlashOutputPricePerMillion : ℚ := 2.50

def Gemini25FlashLiteInputPricePerMillion : ℚ := 0.10

def Gemini25FlashLiteOutputPricePerMillion : ℚ := 0.40

def TokensPerMillion : ℚ := 1000000

/-- Per-million token prices of one model tier (gemini.go, type
ModelPrices). -/
structure ModelPrices where
  InputPricePerMillion : ℚ
  OutputPricePerMillion : ℚ
deriving DecidableEq

/-- Model of GetModelPrices (gemini.go lines 63 to 102): a switch over the
model name, with the two tiered models choosing a tier by comparing the
input token count against the 200000 token threshold; an unsupported
model yields an error, modeled as none. -/
def GetModelPrices (modelName : String) (inputTokens : Int) : Option ModelPrices :=
  if modelName = "gemini-2.5-pro" ∨ modelName = "gemini-1.5-pro" ∨ modelName = "gemini-pro" then
    if inputTokens ≤ Gemini25ProPromptTokenThreshold then
      some { InputPricePerMillion := Gemini25ProInputPriceLowTierPerMillion,
             OutputPricePerMillion := Gemini25ProOutputPriceLowTierPerMillion }
    else
      some { InputPricePerMillion := Gemini25ProInputPriceHighTierPerMillion,
             OutputPricePerMillion := Gemini25ProOutputPriceHighTierPerMillion }
  else if modelName = "gemini-3-pro-preview" then
    if inputTokens ≤ Gemini25ProPromptTokenThreshold then
      some { InputPricePerMillion := Gemini3ProPreviewInputPriceLowTierPerMillion,
             OutputPricePerMillion := Gemini3ProPreviewOutputPriceLowTierPerMillion }
    else
      some { InputPricePerMillion := Gemini3ProPreviewInputPriceHighTierPerMillion,
             OutputPricePerMillion := Gemini3ProPreviewOutputPriceHighTierPerMillion }
  else if modelName = "gemini-2.5-flash" then
    some { InputPricePerMillion := Gemini25FlashInputPricePerMillion,
           OutputPricePerMillion := Gemini25FlashOutputPricePerMillion }
  else if modelName = "gemini-2.5-flash-lite" then
    some { InputPricePerMillion := Gemini25FlashLiteInputPricePerMillion,
           OutputPricePerMillion := Gemini25FlashLiteOutputPricePerMillion }
  else none

/-- Outcome of the GenerateContent call inside CallGeminiAPI: a transport
error, a response with no candidates or empty content, or a successful
response carrying text, a thought signature and the optional usage
metadata token count. -/
inductive GenerateContentOutcome where
  | failure : GenerateContentOutcome
  | emptyCandidates : GenerateContentOutcome
  | success (text : List Char) (thoughtSignature : List Char) (usage : Option Nat) : GenerateContentOutcome
deriving DecidableEq

/-- Response of CallGeminiAPI (gemini.go, type GeminiAPIResponse). The Err
flag is true exactly when the Go Err field is a non-nil error. -/
structure GeminiAPIResponse where
  GeneratedText : List Char
  ThoughtSignature : List Char
  InputTokens : Nat
  OutputTokens : Nat
  Cost : ℚ
  Err : Bool
deriving DecidableEq

/-- Model of the token counting, pricing and cost logic of CallGeminiAPI
(gemini.go lines 305 to 371), after a successful client construction. The
two external calls are passed as oracles: countResp is the CountTokens
total (none models a failed count, treated as zero input tokens) and gen
is the GenerateContent outcome. A failed pricing lookup falls back to
zero prices and the call proceeds. -/
def CallGeminiAPI (modelName : String) (countResp : Option Nat) (gen : GenerateContentOutcome) :
    GeminiAPIResponse :=
  let inputTokens : Nat := match countResp with | none => 0 | some n => n
  let modelPrices : ModelPrices :=
    match GetModelPrices modelName (inputTokens : Int) with
    | some p => p
    | none => { InputPricePerMillion := 0, OutputPricePerMillion := 0 }
  match gen with
  | .failure =>
    { GeneratedText := [], ThoughtSignature := [], InputTokens := inputTokens,
      OutputTokens := 0, Cost := 0, Err := true }
  | .emptyCandidates =>
    { GeneratedText := [], ThoughtSignature := [], InputTokens := inputTokens,
      OutputTokens := 0, Cost := 0, Err := true }
  | .success text thoughtSignature usage =>
    let outputTokens : Nat := match usage with | none => 0 | some n => n
    { GeneratedText := text, ThoughtSignature := thoughtSignature, InputTokens := inputTokens,
      OutputTokens := outputTokens,
      Cost := (inputTokens : ℚ) / TokensPerMillion * modelPrices.InputPricePerMillion +
        (outputTokens : ℚ) / TokensPerMillion * modelPrices.OutputPricePerMillion,
      Err := false }

/-- ASCII whitespace recognized by the model of strings.TrimSpace. -/
def isSpaceChar (c : Char) : Bool :=
  c == ' ' || c == '\t' || c == '\n' || c == '\x0b' || c == '\x0c' || c == '\r'

/-- Model of strings.TrimSpace restricted to ASCII whitespace. -/
def trimSpace (s : List Char) : List Char :=
  ((s.dropWhile isSpaceChar).reverse.dropWhile isSpaceChar).reverse

/-- The text before the first newline: strings.Split(s, newline) at index
zero. -/
def upToFirstNewline (s : List Char) : List Char :=
  s.takeWhile (fun c => c != '\n')

/-- Value of a decimal digit character. -/
def digitVal (c : Char) : Option Nat :=
  if c.isDigit then some (c.toNat - '0'.toNat) else none

/-- Accumulates decimal digits; fails on the first non-digit. -/
def digitsLoop : List Char → Nat → Option Nat
  | [], acc => some acc
  | c :: cs, acc =>
    match digitVal c with
    | none => none
    | some d => digitsLoop cs (acc * 10 + d)

/-- Parses a non-empty run of decimal digits. -/
def parseDigits : List Char → Option Nat
  | [] => none
  | cs => digitsLoop cs 0

/-- Model of strconv.Atoi: an optional sign followed by at least one
decimal digit, rejecting anything else. The 64 bit range check of the Go
function is not modeled, since no claim depends on overflow. -/
def Atoi (s : List Char) : Option Int :=
  match s with
  | '-' :: cs => (parseDigits cs).map (fun n => -(n : Int))
  | '+' :: cs => (parseDigits cs).map (fun n => (n : Int))
  | cs => (parseDigits cs).map (fun n => (n : Int))

/-- Result of the chapter count helpers (gemini.go, type
ChapterCountResult). The Err flag is true exactly when the Go Err field
is a non-nil error. -/
structure ChapterCountResult where
  Count : Int
  InputTokens : Nat
  OutputTokens : Nat
  Cost : ℚ
  Err : Bool
deriving DecidableEq

/-- Model of getChapterCountFromGemini
(fullText1/pkg/abstract/createAbstract.go lines 98 to 143) after the
CallGeminiAPI response is in hand: on an API error, return an error with
zero usage; otherwise trim the reply, keep the text before the first
newline, and parse it with strconv.Atoi; a parse failure is an error that
still carries the usage of the call. -/
def getChapterCountFromGemini (apiResponse : GeminiAPIResponse) : ChapterCountResult :=
  if apiResponse.Err then
    { Count := 0, InputTokens := 0, OutputTokens := 0, Cost := 0, Err := true }
  else
    match Atoi (upToFirstNewline (trimSpace apiResponse.GeneratedText)) with
    | none =>
      { Count := 0, InputTokens := apiResponse.InputTokens,
        OutputTokens := apiResponse.OutputTokens, Cost := apiResponse.Cost, Err := true }
    | some count =>
      { Count := count, InputTokens := apiResponse.InputTokens,
        OutputTokens := apiResponse.OutputTokens, Cost := apiResponse.Cost, Err := false }

/-- Model of getWrittenChapterCountFromGemini (story package, part_003
lines 83 to 129): identical parse of the reply that reports the last
fully written chapter of an existing output file. -/
def getWrittenChapterCountFromGemini (apiResponse : GeminiAPIResponse) : ChapterCountResult :=
  if apiResponse.Err then
    { Count := 0, InputTokens := 0, OutputTokens := 0, Cost := 0, Err := true }
  else
    match Atoi (upToFirstNewline (trimSpace apiResponse.GeneratedText)) with
    | none =>
      { Count := 0, InputTokens := apiResponse.InputTokens,
        OutputTokens := apiResponse.OutputTokens, Cost := apiResponse.Cost, Err := true }
    | some count =>
      { Count := count, InputTokens := apiResponse.InputTokens,
        OutputTokens := apiResponse.OutputTokens, Cost := apiResponse.Cost, Err := false }

/-- Observable outcome of the abstract subcommand Execute
(createAbstract.go lines 146 to 254) for the steps after configuration
and chapter number selection: whether and with which content the abstract
file was saved, the parsed pure chapter count if any, whether the chapter
count failure warning was logged, and whether Execute returned an
error. -/
structure AbstractExecOutcome where
  savedAbstractFile : Option (List Char)
  pureChapterCount : Option Int
  reportedCountWarning : Bool
  returnedError : Bool
deriving DecidableEq

/-- Model of the tail of the abstract subcommand Execute
(createAbstract.go lines 193 to 253): generate the abstract, save it to
the output file in YAML form, then ask for the pure chapter count; a
chapter count failure is logged as a warning and does not undo the save
or fail the command. The two API interactions are passed as oracles:
abstractApiResult is the (abstract, thought signature) pair of a
successful generateAbstract call (none models its failure), and
countApiResponse is the CallGeminiAPI response of the chapter count
call. -/
def abstractExecute (abstractApiResult : Option (List Char × List Char))
    (countApiResponse : GeminiAPIResponse) : AbstractExecOutcome :=
  match abstractApiResult with
  | none =>
    { savedAbstractFile := none, pureChapterCount := none,
      reportedCountWarning := false, returnedError := true }
  | some (abstract, signature) =>
    let fileContent := WriteAbstractFile abstract signature
    let chapterCountResult := getChapterCountFromGemini countApiResponse
    if chapterCountResult.Err then
      { savedAbstractFile := some fileContent, pureChapterCount := none,
        reportedCountWarning := true, returnedError := false }
    else
      { savedAbstractFile := some fileContent, pureChapterCount := some chapterCountResult.Count,
        reportedCountWarning := false, returnedError := false }

/-- One conversation turn (gemini.go, type HistoryTurn). -/
structure HistoryTurn where
  UserPrompt : List Char
  ModelResponse : List Char
  ThoughtSignature : List Char
deriving DecidableEq

/-- Open mode of the story output file: os.O_CREATE with os.O_WRONLY for
a fresh file, os.O_APPEND with os.O_WRONLY when resuming. -/
inductive OpenFileMode where
  | createWrite : OpenFileMode
  | appendWrite : OpenFileMode
deriving DecidableEq

/-- Story generation state (part_003, type StoryProgressState). -/
structure StoryProgressState where
  AccumulatedInputTokens : Nat
  AccumulatedOutputTokens : Nat
  AccumulatedCost : ℚ
  PreviousChapters : List Char
  CurrentHistory : Option HistoryTurn
  ChaptersAlreadyWritten : Int
  FirstNewChapter : Int
  FileMode : OpenFileMode
deriving DecidableEq

/-- Story subcommand configuration (part_003, type FullStoryConfig). -/
structure FullStoryConfig where
  ConfigPath : List Char
  AbstractFilePath : List Char
  WordsPerChapter : Int
  OutputPath : List Char
  APIKey : List Char
  ModelName : List Char
  ThinkingLevel : List Char
  AbstractContent : List Char
deriving DecidableEq

/-- Model of initializeStoryStateForResume (part_003 lines 276 to 325).
The file system and the resume detection call are passed as oracles:
fileExists is the os.Stat outcome on the output path, readResult the
os.ReadFile outcome on it (none models a read error), and
writtenCountApiResponse the CallGeminiAPI response used by
getWrittenChapterCountFromGemini on the existing content. -/
def initializeStoryStateForResume (fileExists : Bool) (readResult : Option (List Char))
    (writtenCountApiResponse : GeminiAPIResponse) : StoryProgressState :=
  let state0 : StoryProgressState :=
    { AccumulatedInputTokens := 0, AccumulatedOutputTokens := 0, AccumulatedCost := 0,
      PreviousChapters := [], CurrentHistory := none, ChaptersAlreadyWritten := 0,
      FirstNewChapter := 1, FileMode := .createWrite }
  if fileExists then
    match readResult with
    | none => state0
    | some existingStoryContent =>
      let writtenChapterCountResult := getWrittenChapterCountFromGemini writtenCountApiResponse
      let state1 := { state0 with
        AccumulatedInputTokens := state0.AccumulatedInputTokens + writtenChapterCountResult.InputTokens,
        AccumulatedOutputTokens := state0.AccumulatedOutputTokens + writtenChapterCountResult.OutputTokens,
        AccumulatedCost := state0.AccumulatedCost + writtenChapterCountResult.Cost }
      if writtenChapterCountResult.Err then state1
      else
        let state2 := { state1 with ChaptersAlreadyWritten := writtenChapterCountResult.Count }
        if state2.ChaptersAlreadyWritten > 0 then
          { state2 with
            FirstNewChapter := state2.ChaptersAlreadyWritten + 1,
            FileMode := .appendWrite,
            PreviousChapters := existingStoryContent }
        else state2
  else state0

/-- Preamble written by writeInitialStoryHeader (part_003 lines 328 to
341), with the wall clock timestamp as a parameter. -/
def storyPreamble (timestamp abstractContent : List Char) : List Char :=
  "--- Full Story: ".data ++ timestamp ++ " ---\n\n".data ++
    "Story Plan Abstract:\n".data ++ abstractContent ++ "\n\n".data ++
    "----------------------------------------\n\n".data

/-- Model of writeInitialStoryHeader: the preamble chunk is written only
when no chapters were already present. -/
def writeInitialStoryHeader (timestamp abstractContent : List Char)
    (chaptersAlreadyWritten : Int) : List (List Char) :=
  if chaptersAlreadyWritten = 0 then [storyPreamble timestamp abstractContent] else []

/-- Number of retries for chapter generation (part_003 line 354). -/
def maxChapterRetries : Nat := 3

/-- Externally visible timing and call events of the chapter loop, used
to state the retry pacing: a 2 second sleep precedes every retry and a 1
second sleep follows every successfully written chapter. -/
inductive StoryEvent where
  | callAttempt (chapterNum : Int) (attempt : Nat) : StoryEvent
  | sleepSeconds (seconds : Nat) : StoryEvent
deriving DecidableEq

/-- Chapter header written before each chapter (part_003 line 438). -/
def chapterHeader (chapterNum : Int) : List Char :=
  "## Chapter ".data ++ (toString chapterNum).data ++ "\n\n".data

/-- Prompt built for one chapter (part_003 lines 362 to 381). -/
def chapterPrompt (cfg : FullStoryConfig) (chapterNum : Int) (previousChapters : List Char) :
    List Char :=
  "Given the following complete story abstract (plan) and the chapters already written, please write Chapter ".data ++
    (toString chapterNum).data ++ " of the story.\nGenerate a short title for the charpter.\nThe chapter should be approximately ".data ++
    (toString cfg.WordsPerChapter).data ++ " words. Focus on progressing the narrative as outlined in the abstract for this specific chapter.\n\n--- Full Story Abstract (Plan) ---\n".data ++
    cfg.AbstractContent ++ "\n--- End Full Story Abstract (Plan) ---\n\n--- Previously Written Chapters (including abstract and previous chapters) ---\n".data ++
    previousChapters ++ "\n--- End Previously Written Chapters ---\n\nWrite Chapter ".data ++
    (toString chapterNum).data ++ " now, ensuring it flows logically from previous chapters and adheres to the overall story plan.\n".data

/-- Model of the retry for-loop inside generateStoryChapters (part_003
lines 390 to 418): attempts are numbered from 0, each retry (attempt
above 0) is preceded by a 2 second sleep, the loop stops at the first
success, and fuel counts the retries still allowed after the current
attempt, so the loop entry uses fuel maxChapterRetries. Returns the event
trace and the response of the last attempt made. -/
def chapterRetryLoop (chapterNum : Int) (call : Nat → GeminiAPIResponse) :
    Nat → Nat → List StoryEvent × GeminiAPIResponse
  | attempt, 0 =>
    ((if 0 < attempt then [StoryEvent.sleepSeconds 2] else []) ++
      [StoryEvent.callAttempt chapterNum attempt], call attempt)
  | attempt, fuel + 1 =>
    let events := (if 0 < attempt then [StoryEvent.sleepSeconds 2] else []) ++
      [StoryEvent.callAttempt chapterNum attempt]
    if (call attempt).Err then
      let next := chapterRetryLoop chapterNum call (attempt + 1) fuel
      (events ++ next.1, next.2)
    else (events, call attempt)

/-- Effect of one iteration of the chapter loop. -/
structure ChapterStepResult where
  events : List StoryEvent
  fatal : Bool
  state : StoryProgressState
  writtenChunk : Option (List Char)
  nextThoughtSignature : List Char
deriving DecidableEq

/-- Model of one iteration of the chapter loop in generateStoryChapters
(part_003 lines 357 to 464). When every attempt fails, the Go code calls
log.Fatalf, which prints and then calls os.Exit(1): the process dies on
the spot, so the statements that follow it (the placeholder chapter text
for the failed chapter, the accumulation and the file writes) never run;
the model returns with fatal set and nothing written. On success the
chapter header and the trimmed chapter text are appended to the output
file, the usage of the successful attempt is accumulated, the in-memory
context and history are extended, and a 1 second sleep closes the
iteration. -/
def chapterStep (cfg : FullStoryConfig) (call : Nat → GeminiAPIResponse) (chapterNum : Int)
    (previousChapterThoughtSignature : List Char) (state : StoryProgressState) :
    ChapterStepResult :=
  let prompt := chapterPrompt cfg chapterNum state.PreviousChapters
  let retry := chapterRetryLoop chapterNum call 0 maxChapterRetries
  let apiResponse := retry.2
  if apiResponse.Err then
    { events := retry.1, fatal := true, state := state, writtenChunk := none,
      nextThoughtSignature := previousChapterThoughtSignature }
  else
    let chapterHeaderChunk := chapterHeader chapterNum
    let chapterContentToWrite := trimSpace apiResponse.GeneratedText ++ "\n\n".data
    let newState : StoryProgressState := { state with
      AccumulatedInputTokens := state.AccumulatedInputTokens + apiResponse.InputTokens,
      AccumulatedOutputTokens := state.AccumulatedOutputTokens + apiResponse.OutputTokens,
      AccumulatedCost := state.AccumulatedCost + apiResponse.Cost,
      PreviousChapters := state.PreviousChapters ++ chapterHeaderChunk ++ chapterContentToWrite,
      CurrentHistory := some
        { UserPrompt := prompt,
          ModelResponse := apiResponse.GeneratedText,
          ThoughtSignature := apiResponse.ThoughtSignature } }
    { events := retry.1 ++ [StoryEvent.sleepSeconds 1], fatal := false, state := newState,
      writtenChunk := some (chapterHeaderChunk ++ chapterContentToWrite),
      nextThoughtSignature := apiResponse.ThoughtSignature }

/-- Result of the chapter loop: done models the loop running to
completion, fatalExit models the process dying inside log.Fatalf with the
output file holding exactly the chunks written so far. -/
inductive StoryRunResult where
  | done (state : StoryProgressState) (chunks : List (List Char)) (events : List StoryEvent) : StoryRunResult
  | fatalExit (chapterNum : Int) (state : StoryProgressState) (chunks : List (List Char))
      (events : List StoryEvent) : StoryRunResult
deriving DecidableEq

/-- Whether the loop ran to completion. -/
def StoryRunResult.isDone : StoryRunResult → Bool
  | .done _ _ _ => true
  | .fatalExit _ _ _ _ => false

/-- The chunks present in the output file when the loop ended, in the
order they were appended. -/
def StoryRunResult.fileChunks : StoryRunResult → List (List Char)
  | .done _ chunks _ => chunks
  | .fatalExit _ _ chunks _ => chunks

/-- The chapter loop of generateStoryChapters (part_003 lines 357 to
464): the Go loop runs i from FirstNewChapter - 1 while i is less than
totalChapters, so fuel is instantiated with the iteration count of that
loop by the entry point below. The api oracle gives the CallGeminiAPI
response per chapter number and attempt number. -/
def runChaptersAux (cfg : FullStoryConfig) (api : Int → Nat → GeminiAPIResponse)
    (totalChapters : Int) (fuel : Nat) (i : Int) (previousChapterThoughtSignature : List Char)
    (state : StoryProgressState) (chunks : List (List Char)) (events : List StoryEvent) :
    StoryRunResult :=
  match fuel with
  | 0 => .done state chunks events
  | f + 1 =>
    let chapterNum := i + 1
    let step := chapterStep cfg (api chapterNum) chapterNum previousChapterThoughtSignature state
    if step.fatal then .fatalExit chapterNum step.state chunks (events ++ step.events)
    else
      runChaptersAux cfg api totalChapters f (i + 1) step.nextThoughtSignature step.state
        (chunks ++ step.writtenChunk.toList) (events ++ step.events)

/-- Model of generateStoryChapters (part_003 lines 345 to 466): the loop
starts at index FirstNewChapter - 1, ends before totalChapters, and the
previous chapter thought signature starts empty (line 355). -/
def generateStoryChapters (cfg : FullStoryConfig) (api : Int → Nat → GeminiAPIResponse)
    (totalChapters : Int) (state : StoryProgressState) : StoryRunResult :=
  runChaptersAux cfg api totalChapters (totalChapters - (state.FirstNewChapter - 1)).toNat
    (state.FirstNewChapter - 1) [] state [] []

/-- The chunk a fully successful iteration appends for one chapter, given
the per-chapter response oracle. -/
def successBlock (g : Int → GeminiAPIResponse) (chapterNum : Int) : List Char :=
  chapterHeader chapterNum ++ trimSpace (g chapterNum).GeneratedText ++ "\n\n".data

theorem dropLiteral_append (l s : List Char) : dropLiteral l (l ++ s) = some s := by
  induction l with
  | nil => rfl
  | cons c cs ih => simp [dropLiteral, ih]

theorem scanQuoted_esc (s r : List Char) :
    scanQuoted (esc s ++ '"' :: r) = some (s, r) := by
  induction s with
  | nil => rw [esc, List.nil_append, scanQuoted.eq_def]; simp
  | cons c cs ih =>
    by_cases hc : c = '\\' ∨ c = '"'
    · have h1 : ¬ ('\\' : Char) = '"' := by decide
      rw [esc, escChar, if_pos hc]
      show scanQuoted ('\\' :: c :: (esc cs ++ '"' :: r)) = some (c :: cs, r)
      rw [scanQuoted.eq_def]
      simp only [if_neg h1, if_pos rfl, ih]
      simp
    · push_neg at hc
      rw [esc, escChar, if_neg (by tauto)]
      show scanQuoted (c :: (esc cs ++ '"' :: r)) = some (c :: cs, r)
      rw [scanQuoted.eq_def]
      simp only [if_neg hc.2, if_neg hc.1, ih]

theorem yamlUnmarshal_yamlMarshal (o : AbstractOutputFile) :
    yamlUnmarshal (yamlMarshal o) = some o := by
  obtain ⟨a, t⟩ := o
  by_cases h : t = []
  · subst h
    have hm : yamlMarshal { Abstract := a, ThoughtSignature := [] } =
        "abstract: \"".data ++ (esc a ++ '"' :: ['\n']) := by
      simp [yamlMarshal]
    rw [yamlUnmarshal, hm, dropLiteral_append]
    simp only [scanQuoted_esc]
    simp
  · have hm : yamlMarshal { Abstract := a, ThoughtSignature := t } = "abstract: \"".data ++
        (esc a ++ '"' :: ('\n' ::
          ("thought_signature: \"".data ++ (esc t ++ '"' :: ['\n'])))) := by
      simp [yamlMarshal, h]
    rw [yamlUnmarshal, hm, dropLiteral_append]
    simp only [scanQuoted_esc]
    have hne : "thought_signature: \"".data ++ (esc t ++ '"' :: ['\n']) ≠ [] := by
      simp
    simp only [hne, if_false, dropLiteral_append, scanQuoted_esc]
    simp

theorem hasSuffix_exclusive (s l1 l2 : List Char) (h1 : hasSuffix s l1 = true)
    (h2 : hasSuffix s l2 = true) (hle : l1.length ≤ l2.length) : l1 <:+ l2 := by
  unfold hasSuffix at h1 h2
  rw [List.isSuffixOf_iff_suffix] at h1 h2
  have p1 : l1.reverse <+: s.reverse := List.reverse_prefix.mpr h1
  have p2 : l2.reverse <+: s.reverse := List.reverse_prefix.mpr h2
  have p3 : l1.reverse <+: l2.reverse :=
    List.prefix_of_prefix_length_le p1 p2 (by simpa using hle)
  exact List.reverse_prefix.mp p3

theorem json_suffix_not_yaml (s : List Char) (hj : hasSuffix s ".json".data = true) :
    hasSuffix s ".yaml".data = false ∧ hasSuffix s ".yml".data = false := by
  constructor
  · by_contra h
    rw [Bool.not_eq_false] at h
    have hs := hasSuffix_exclusive s ".yaml".data ".json".data h hj (by decide)
    exact absurd hs (by decide)
  · by_contra h
    rw [Bool.not_eq_false] at h
    have hs := hasSuffix_exclusive s ".yml".data ".json".data h hj (by decide)
    exact absurd hs (by decide)

theorem jsonUnmarshal_yamlMarshal (o : AbstractOutputFile) :
    jsonUnmarshal (yamlMarshal o) = none := rfl

/-- C1: the claim reads: writing an AbstractRecord with WriteAbstractFile
to a path and then reading that path back with ReadAbstractFile yields
the same abstractText and continuationToken both for a .yaml/.yml path
and for a .json path. The .json half is false: WriteAbstractFile always
serializes to YAML, json.Unmarshal rejects that YAML document, and the
read falls back to returning the whole serialized file as the abstract
text with an empty token. Concrete refutation at abstract "hi" and token
"sig" written to path abstract.json. -/
theorem c1_counterexample :
    ReadAbstractFileContent "abstract.json".data
      (WriteAbstractFile "hi".data "sig".data) ≠ ("hi".data, "sig".data) := by
  decide

/-- C1 (amended): for every abstract text and continuation token, the
write-then-read round trip restores both values byte-for-byte when the
path has a .yaml or .yml extension; when the path has a .json extension
the structured parse fails and the read instead returns the entire
YAML-serialized file content as the abstract text with an empty token. -/
theorem c1_amended_roundtrip (abstract thoughtSignature path : List Char) :
    ((hasSuffix (strToLower path) ".yaml".data = true ∨
        hasSuffix (strToLower path) ".yml".data = true) →
      ReadAbstractFileContent path (WriteAbstractFile abstract thoughtSignature) =
        (abstract, thoughtSignature)) ∧
    (hasSuffix (strToLower path) ".json".data = true →
      ReadAbstractFileContent path (WriteAbstractFile abstract thoughtSignature) =
        (WriteAbstractFile abstract thoughtSignature, [])) := by
  constructor
  · intro h
    rcases h with h | h <;>
      simp [ReadAbstractFileContent, h, WriteAbstractFile, yamlUnmarshal_yamlMarshal]
  · intro h
    obtain ⟨hy, hm⟩ := json_suffix_not_yaml (strToLower path) h
    have hjson : jsonUnmarshal (WriteAbstractFile abstract thoughtSignature) = none :=
      jsonUnmarshal_yamlMarshal _
    simp [ReadAbstractFileContent, h, hy, hm, hjson]

theorem c1_amended_witness :
    hasSuffix (strToLower "out.yaml".data) ".yaml".data = true ∧
      ReadAbstractFileContent "out.yaml".data (WriteAbstractFile "hi".data "sig".data) =
        ("hi".data, "sig".data) :=
  ⟨by decide, (c1_amended_roundtrip "hi".data "sig".data "out.yaml".data).1 (Or.inl (by decide))⟩

/-- C3: for every readable file, ReadAbstractFile never returns an error
because of the file content: with any content bytes the call succeeds,
and whenever the extension is unrecognized or the relevant
deserialization fails, the result is the raw file content as the
abstract text with an empty thought signature. -/
theorem c3_fallback (path bytes : List Char) :
    ReadAbstractFile path (some bytes) = some (ReadAbstractFileContent path bytes) ∧
    (hasSuffix (strToLower path) ".yaml".data = false →
      hasSuffix (strToLower path) ".yml".data = false →
      hasSuffix (strToLower path) ".json".data = false →
      ReadAbstractFileContent path bytes = (bytes, [])) ∧
    ((hasSuffix (strToLower path) ".yaml".data = true ∨
        hasSuffix (strToLower path) ".yml".data = true) →
      yamlUnmarshal bytes = none → ReadAbstractFileContent path bytes = (bytes, [])) ∧
    (hasSuffix (strToLower path) ".json".data = true →
      jsonUnmarshal bytes = none → ReadAbstractFileContent path bytes = (bytes, [])) := by
  refine ⟨rfl, ?_, ?_, ?_⟩
  · intro h1 h2 h3
    simp [ReadAbstractFileContent, h1, h2, h3]
  · intro h hparse
    rcases h with h | h <;> simp [ReadAbstractFileContent, h, hparse]
  · intro h hparse
    obtain ⟨hy, hm⟩ := json_suffix_not_yaml (strToLower path) h
    simp [ReadAbstractFileContent, h, hy, hm, hparse]

theorem c3_witness :
    (hasSuffix (strToLower "abstract.txt".data) ".yaml".data = false ∧
      hasSuffix (strToLower "abstract.txt".data) ".yml".data = false ∧
      hasSuffix (strToLower "abstract.txt".data) ".json".data = false) ∧
    ReadAbstractFileContent "abstract.txt".data "plain text".data = ("plain text".data, []) :=
  ⟨⟨by decide, by decide, by decide⟩,
    (c3_fallback "abstract.txt".data "plain text".data).2.1 (by decide) (by decide) (by decide)⟩

/-- C10: ReadAbstractFile selects the structured parser by a
case-insensitive suffix test on the whole path: every path whose
lowercased form ends in .yaml or .yml is attempted as YAML and every
path whose lowercased form ends in .json is attempted as JSON, so
uppercase or mixed-case extensions receive the structured parse rather
than the plain-text fallback. -/
theorem c10_dispatch (path bytes : List Char) :
    ((hasSuffix (strToLower path) ".yaml".data = true ∨
        hasSuffix (strToLower path) ".yml".data = true) →
      ReadAbstractFileContent path bytes =
        (match yamlUnmarshal bytes with
          | none => (bytes, ([] : List Char))
          | some abstractData => (abstractData.Abstract, abstractData.ThoughtSignature))) ∧
    (hasSuffix (strToLower path) ".json".data = true →
      ReadAbstractFileContent path bytes =
        (match jsonUnmarshal bytes with
          | none => (bytes, ([] : List Char))
          | some abstractData => (abstractData.Abstract, abstractData.ThoughtSignature))) := by
  constructor
  · intro h
    rcases h with h | h <;> simp [ReadAbstractFileContent, h]
  · intro h
    obtain ⟨hy, hm⟩ := json_suffix_not_yaml (strToLower path) h
    simp [ReadAbstractFileContent, h, hy, hm]

theorem c10_witness :
    (hasSuffix (strToLower "ABSTRACT.YAML".data) ".yaml".data = true ∧
      ReadAbstractFileContent "ABSTRACT.YAML".data (WriteAbstractFile "plan".data "tok".data) =
        ("plan".data, "tok".data)) ∧
    (hasSuffix (strToLower "a.Json".data) ".json".data = true ∧
      ReadAbstractFileContent "a.Json".data "\x7b\"abstract\":\"x\"\x7d".data =
        ("x".data, [])) := by
  refine ⟨⟨by decide, ?_⟩, ⟨by decide, ?_⟩⟩
  · have h := (c10_dispatch "ABSTRACT.YAML".data
      (WriteAbstractFile "plan".data "tok".data)).1 (Or.inl (by decide))
    rw [h]
    decide
  · have h := (c10_dispatch "a.Json".data "\x7b\"abstract\":\"x\"\x7d".data).2 (by decide)
    rw [h]
    decide

/-- C7: when a config file loads successfully its fields are used, with a
missing api_key falling back to the GEMINI_API_KEY environment variable
and a missing model_name falling back to the hardcoded default model
string; the resolver errors exactly when neither the config file nor the
environment supplies an API key; in particular a config file with
api_key present but model_name absent resolves to the default model. -/
theorem c7_config (configPath : String) (loadResult : Option GeminiConfig)
    (envGeminiApiKey : String) :
    ((LoadGeminiConfigWithFallback configPath loadResult envGeminiApiKey).Err = true ↔
      (configFileAPIKey configPath loadResult = "" ∧ envGeminiApiKey = "")) ∧
    (∀ geminiConfig : GeminiConfig, configPath ≠ "" → loadResult = some geminiConfig →
      geminiConfig.APIKey ≠ "" →
      LoadGeminiConfigWithFallback configPath loadResult envGeminiApiKey =
        { APIKey := geminiConfig.APIKey,
          ModelName := if geminiConfig.ModelName = "" then DefaultGeminiModel
            else geminiConfig.ModelName,
          ThinkingLevel := geminiConfig.ThinkingLevel, Err := false }) ∧
    (∀ geminiConfig : GeminiConfig, configPath ≠ "" → loadResult = some geminiConfig →
      geminiConfig.APIKey = "" → envGeminiApiKey ≠ "" →
      LoadGeminiConfigWithFallback configPath loadResult envGeminiApiKey =
        { APIKey := envGeminiApiKey,
          ModelName := if geminiConfig.ModelName = "" then DefaultGeminiModel
            else geminiConfig.ModelName,
          ThinkingLevel := geminiConfig.ThinkingLevel, Err := false }) := by
  refine ⟨?_, ?_, ?_⟩
  · by_cases hp : configPath = ""
    · subst hp
      by_cases he : envGeminiApiKey = "" <;>
        simp [LoadGeminiConfigWithFallback, configFileAPIKey, finalizeDetails, he,
          DefaultGeminiModel]
    · cases loadResult with
      | none =>
        by_cases he : envGeminiApiKey = "" <;>
          simp [LoadGeminiConfigWithFallback, configFileAPIKey, finalizeDetails, hp, he,
            DefaultGeminiModel]
      | some geminiConfig =>
        by_cases hk : geminiConfig.APIKey = ""
        · by_cases he : envGeminiApiKey = "" <;>
            by_cases hm : geminiConfig.ModelName = "" <;>
              simp [LoadGeminiConfigWithFallback, configFileAPIKey, finalizeDetails, hp, hk,
                he, hm, DefaultGeminiModel]
        · by_cases hm : geminiConfig.ModelName = "" <;>
            simp [LoadGeminiConfigWithFallback, configFileAPIKey, finalizeDetails, hp, hk,
              hm, DefaultGeminiModel]
  · intro geminiConfig hp hl hk
    subst hl
    by_cases hm : geminiConfig.ModelName = "" <;>
      simp [LoadGeminiConfigWithFallback, finalizeDetails, hp, hk, hm, DefaultGeminiModel]
  · intro geminiConfig hp hl hk he
    subst hl
    by_cases hm : geminiConfig.ModelName = "" <;>
      simp [LoadGeminiConfigWithFallback, finalizeDetails, hp, hk, he, hm, DefaultGeminiModel]

theorem c7_witness :
    (("config.json" : String) ≠ "" ∧ ("key123" : String) ≠ "") ∧
    LoadGeminiConfigWithFallback "config.json"
        (some { APIKey := "key123", ModelName := "", ThinkingLevel := "low" }) "" =
      { APIKey := "key123", ModelName := DefaultGeminiModel, ThinkingLevel := "low",
        Err := false } := by
  refine ⟨⟨by decide, by decide⟩, ?_⟩
  have h := (c7_config "config.json"
    (some { APIKey := "key123", ModelName := "", ThinkingLevel := "low" }) "").2.1
    { APIKey := "key123", ModelName := "", ThinkingLevel := "low" }
    (by decide) rfl (by decide)
  simpa using h

theorem CallGeminiAPI_success_cost (modelName : String) (countResp : Option Nat)
    (text thoughtSignature : List Char) (usage : Option Nat) :
    (CallGeminiAPI modelName countResp (.success text thoughtSignature usage)).Cost =
      ((CallGeminiAPI modelName countResp (.success text thoughtSignature usage)).InputTokens : ℚ) /
          TokensPerMillion *
          (match GetModelPrices modelName
              ((CallGeminiAPI modelName countResp (.success text thoughtSignature usage)).InputTokens : Int) with
            | some p => p
            | none => { InputPricePerMillion := 0, OutputPricePerMillion := 0 }).InputPricePerMillion +
        ((CallGeminiAPI modelName countResp (.success text thoughtSignature usage)).OutputTokens : ℚ) /
          TokensPerMillion *
          (match GetModelPrices modelName
              ((CallGeminiAPI modelName countResp (.success text thoughtSignature usage)).InputTokens : Int) with
            | some p => p
            | none => { InputPricePerMillion := 0, OutputPricePerMillion := 0 }).OutputPricePerMillion := rfl

/-- C8: for every successful API call the reported cost equals
inputTokens divided by one million times the input price plus
outputTokens divided by one million times the output price, with the
prices taken from the static per-model table (tier chosen by comparing
the input tokens against the 200000 token threshold for the tiered
models); for a model name not in the table both prices are zero, the
cost is reported as 0, and the call still succeeds. -/
theorem c8_cost (modelName : String) (countResp : Option Nat) (text thoughtSignature : List Char)
    (usage : Option Nat) :
    ((CallGeminiAPI modelName countResp (.success text thoughtSignature usage)).Err = false) ∧
    ((CallGeminiAPI modelName countResp (.success text thoughtSignature usage)).Cost =
      ((CallGeminiAPI modelName countResp (.success text thoughtSignature usage)).InputTokens : ℚ) /
          TokensPerMillion *
          (match GetModelPrices modelName
              ((CallGeminiAPI modelName countResp (.success text thoughtSignature usage)).InputTokens : Int) with
            | some p => p
            | none => { InputPricePerMillion := 0, OutputPricePerMillion := 0 }).InputPricePerMillion +
        ((CallGeminiAPI modelName countResp (.success text thoughtSignature usage)).OutputTokens : ℚ) /
          TokensPerMillion *
          (match GetModelPrices modelName
              ((CallGeminiAPI modelName countResp (.success text thoughtSignature usage)).InputTokens : Int) with
            | some p => p
            | none => { InputPricePerMillion := 0, OutputPricePerMillion := 0 }).OutputPricePerMillion) ∧
    (GetModelPrices modelName
        ((CallGeminiAPI modelName countResp (.success text thoughtSignature usage)).InputTokens : Int) = none →
      (CallGeminiAPI modelName countResp (.success text thoughtSignature usage)).Cost = 0) ∧
    (∀ inputTokens : Int,
      GetModelPrices "gemini-2.5-pro" inputTokens =
        some (if inputTokens ≤ Gemini25ProPromptTokenThreshold then
          { InputPricePerMillion := Gemini25ProInputPriceLowTierPerMillion,
            OutputPricePerMillion := Gemini25ProOutputPriceLowTierPerMillion }
        else
          { InputPricePerMillion := Gemini25ProInputPriceHighTierPerMillion,
            OutputPricePerMillion := Gemini25ProOutputPriceHighTierPerMillion })) ∧
    (∀ inputTokens : Int,
      GetModelPrices "gemini-3-pro-preview" inputTokens =
        some (if inputTokens ≤ Gemini25ProPromptTokenThreshold then
          { InputPricePerMillion := Gemini3ProPreviewInputPriceLowTierPerMillion,
            OutputPricePerMillion := Gemini3ProPreviewOutputPriceLowTierPerMillion }
        else
          { InputPricePerMillion := Gemini3ProPreviewInputPriceHighTierPerMillion,
            OutputPricePerMillion := Gemini3ProPreviewOutputPriceHighTierPerMillion })) := by
  refine ⟨rfl, rfl, ?_, ?_, ?_⟩
  · intro h
    rw [CallGeminiAPI_success_cost, h]
    simp
  · intro inputTokens
    by_cases h : inputTokens ≤ Gemini25ProPromptTokenThreshold <;>
      simp [GetModelPrices, h]
  · intro inputTokens
    by_cases h : inputTokens ≤ Gemini25ProPromptTokenThreshold <;>
      simp [GetModelPrices, h]

theorem c8_witness :
    GetModelPrices "unknown-model" 100 = none ∧
    (CallGeminiAPI "unknown-model" (some 100) (.success "hi".data [] (some 50))).Cost = 0 ∧
    (CallGeminiAPI "unknown-model" (some 100) (.success "hi".data [] (some 50))).Err = false := by
  refine ⟨by decide, ?_, ?_⟩
  · exact (c8_cost "unknown-model" (some 100) "hi".data [] (some 50)).2.2.1 (by decide)
  · exact (c8_cost "unknown-model" (some 100) "hi".data [] (some 50)).1

/-- C9: the chapter-count extraction after abstract generation trims the
reply, keeps the text before the first newline, and parses it with
strconv.Atoi; when that parse fails the failure is reported as a warning,
the Execute call still succeeds, and the abstract file that was written
before the chapter-count call remains saved with its content unchanged
(the save happens before the count call, and the count outcome never
touches the file). -/
theorem c9_count_parse (abstract signature : List Char) (countApiResponse : GeminiAPIResponse) :
    ((abstractExecute (some (abstract, signature)) countApiResponse).savedAbstractFile =
      some (WriteAbstractFile abstract signature)) ∧
    (countApiResponse.Err = false →
      Atoi (upToFirstNewline (trimSpace countApiResponse.GeneratedText)) = none →
      abstractExecute (some (abstract, signature)) countApiResponse =
        { savedAbstractFile := some (WriteAbstractFile abstract signature),
          pureChapterCount := none, reportedCountWarning := true, returnedError := false }) ∧
    (∀ count : Int, countApiResponse.Err = false →
      Atoi (upToFirstNewline (trimSpace countApiResponse.GeneratedText)) = some count →
      abstractExecute (some (abstract, signature)) countApiResponse =
        { savedAbstractFile := some (WriteAbstractFile abstract signature),
          pureChapterCount := some count, reportedCountWarning := false,
          returnedError := false }) := by
  refine ⟨?_, ?_, ?_⟩
  · by_cases he : countApiResponse.Err
    · simp [abstractExecute, getChapterCountFromGemini, he]
    · rw [Bool.not_eq_true] at he
      cases hp : Atoi (upToFirstNewline (trimSpace countApiResponse.GeneratedText)) <;>
        simp [abstractExecute, getChapterCountFromGemini, he, hp]
  · intro he hp
    simp [abstractExecute, getChapterCountFromGemini, he, hp]
  · intro count he hp
    simp [abstractExecute, getChapterCountFromGemini, he, hp]

theorem c9_witness :
    (((⟨"  7ish\nmore".data, [], 9, 4, 0, false⟩ : GeminiAPIResponse).Err = false) ∧
      Atoi (upToFirstNewline (trimSpace
        (⟨"  7ish\nmore".data, [], 9, 4, 0, false⟩ : GeminiAPIResponse).GeneratedText)) = none) ∧
    abstractExecute (some ("my plan".data, "tok".data))
        (⟨"  7ish\nmore".data, [], 9, 4, 0, false⟩ : GeminiAPIResponse) =
      ⟨some (WriteAbstractFile "my plan".data "tok".data), none, true, false⟩ := by
  refine ⟨⟨by decide, by decide⟩, ?_⟩
  exact (c9_count_parse "my plan".data "tok".data
    (⟨"  7ish\nmore".data, [], 9, 4, 0, false⟩ : GeminiAPIResponse)).2.1 (by decide) (by decide)

/-- C4: in the resume scan over an existing output file, a detected
written-chapter count k above zero produces a state with FirstNewChapter
equal to k plus one, the output file open mode set to append, and
PreviousChapters seeded with the full existing file text; when the
detection call errors or its reply does not parse as an integer, the
claimed fields are those of a fresh start: zero chapters already
written, FirstNewChapter one, create mode, empty PreviousChapters. -/
theorem c4_resume (existingStoryContent : List Char)
    (writtenCountApiResponse : GeminiAPIResponse) :
    (∀ k : Int,
      (getWrittenChapterCountFromGemini writtenCountApiResponse).Err = false →
      (getWrittenChapterCountFromGemini writtenCountApiResponse).Count = k → 0 < k →
      (initializeStoryStateForResume true (some existingStoryContent)
          writtenCountApiResponse).ChaptersAlreadyWritten = k ∧
      (initializeStoryStateForResume true (some existingStoryContent)
          writtenCountApiResponse).FirstNewChapter = k + 1 ∧
      (initializeStoryStateForResume true (some existingStoryContent)
          writtenCountApiResponse).FileMode = .appendWrite ∧
      (initializeStoryStateForResume true (some existingStoryContent)
          writtenCountApiResponse).PreviousChapters = existingStoryContent) ∧
    ((getWrittenChapterCountFromGemini writtenCountApiResponse).Err = true →
      (initializeStoryStateForResume true (some existingStoryContent)
          writtenCountApiResponse).ChaptersAlreadyWritten = 0 ∧
      (initializeStoryStateForResume true (some existingStoryContent)
          writtenCountApiResponse).FirstNewChapter = 1 ∧
      (initializeStoryStateForResume true (some existingStoryContent)
          writtenCountApiResponse).FileMode = .createWrite ∧
      (initializeStoryStateForResume true (some existingStoryContent)
          writtenCountApiResponse).PreviousChapters = []) := by
  constructor
  · intro k herr hcount hk
    subst hcount
    simp [initializeStoryStateForResume, herr, hk]
  · intro herr
    simp [initializeStoryStateForResume, herr]

theorem c4_witness :
    ((getWrittenChapterCountFromGemini
        (⟨"3".data, [], 12, 1, 0, false⟩ : GeminiAPIResponse)).Err = false ∧
      (getWrittenChapterCountFromGemini
        (⟨"3".data, [], 12, 1, 0, false⟩ : GeminiAPIResponse)).Count = 3 ∧ (0 : Int) < 3) ∧
    ((initializeStoryStateForResume true (some "old text".data)
        (⟨"3".data, [], 12, 1, 0, false⟩ : GeminiAPIResponse)).FirstNewChapter = 4 ∧
      (initializeStoryStateForResume true (some "old text".data)
        (⟨"3".data, [], 12, 1, 0, false⟩ : GeminiAPIResponse)).FileMode = .appendWrite ∧
      (initializeStoryStateForResume true (some "old text".data)
        (⟨"3".data, [], 12, 1, 0, false⟩ : GeminiAPIResponse)).PreviousChapters =
          "old text".data) := by
  refine ⟨⟨by decide, by decide, by decide⟩, ?_⟩
  have h := (c4_resume "old text".data
    (⟨"3".data, [], 12, 1, 0, false⟩ : GeminiAPIResponse)).1 3 (by decide) (by decide) (by decide)
  exact ⟨h.2.1, h.2.2.1, h.2.2.2⟩

theorem chapterRetryLoop_first_success (chapterNum : Int) (call : Nat → GeminiAPIResponse)
    (fuel : Nat) (h : (call 0).Err = false) :
    chapterRetryLoop chapterNum call 0 fuel = ([StoryEvent.callAttempt chapterNum 0], call 0) := by
  cases fuel with
  | zero => simp [chapterRetryLoop]
  | succ f => simp [chapterRetryLoop, h]

theorem chapterRetryLoop_all_attempts (chapterNum : Int) (call : Nat → GeminiAPIResponse)
    (h0 : (call 0).Err = true) (h1 : (call 1).Err = true) (h2 : (call 2).Err = true) :
    chapterRetryLoop chapterNum call 0 maxChapterRetries =
      ([StoryEvent.callAttempt chapterNum 0, StoryEvent.sleepSeconds 2,
        StoryEvent.callAttempt chapterNum 1, StoryEvent.sleepSeconds 2,
        StoryEvent.callAttempt chapterNum 2, StoryEvent.sleepSeconds 2,
        StoryEvent.callAttempt chapterNum 3], call 3) := by
  simp [chapterRetryLoop, maxChapterRetries, h0, h1, h2]

theorem map_range_shift (B : Int → List Char) (i : Int) (f : Nat) :
    (List.range (f + 1)).map (fun k : Nat => B (i + 1 + (k : Int))) =
      B (i + 1) :: (List.range f).map (fun k : Nat => B (i + 1 + 1 + (k : Int))) := by
  rw [List.range_succ_eq_map]
  simp only [List.map_cons, List.map_map, Nat.cast_zero, add_zero]
  congr 1
  refine List.map_congr_left (fun k hk => ?_)
  simp only [Function.comp]
  congr 1
  push_cast
  ring

theorem runChaptersAux_all_success (cfg : FullStoryConfig) (api : Int → Nat → GeminiAPIResponse)
    (totalChapters : Int) (h : ∀ c a, (api c a).Err = false) :
    ∀ (fuel : Nat) (i : Int) (sig : List Char) (state : StoryProgressState)
      (chunks : List (List Char)) (events : List StoryEvent),
      (runChaptersAux cfg api totalChapters fuel i sig state chunks events).isDone = true ∧
      (runChaptersAux cfg api totalChapters fuel i sig state chunks events).fileChunks =
        chunks ++ (List.range fuel).map
          (fun k : Nat => successBlock (fun c => api c 0) (i + 1 + (k : Int))) := by
  intro fuel
  induction fuel with
  | zero =>
    intro i sig state chunks events
    simp [runChaptersAux, StoryRunResult.isDone, StoryRunResult.fileChunks]
  | succ f ih =>
    intro i sig state chunks events
    have hfatal : (chapterStep cfg (api (i + 1)) (i + 1) sig state).fatal = false := by
      simp [chapterStep, chapterRetryLoop_first_success (i + 1) (api (i + 1))
        maxChapterRetries (h (i + 1) 0), h (i + 1) 0]
    have hchunk : (chapterStep cfg (api (i + 1)) (i + 1) sig state).writtenChunk =
        some (successBlock (fun c => api c 0) (i + 1)) := by
      simp [chapterStep, chapterRetryLoop_first_success (i + 1) (api (i + 1))
        maxChapterRetries (h (i + 1) 0), h (i + 1) 0, successBlock]
    have hrec : runChaptersAux cfg api totalChapters (f + 1) i sig state chunks events =
        runChaptersAux cfg api totalChapters f (i + 1)
          (chapterStep cfg (api (i + 1)) (i + 1) sig state).nextThoughtSignature
          (chapterStep cfg (api (i + 1)) (i + 1) sig state).state
          (chunks ++ (chapterStep cfg (api (i + 1)) (i + 1) sig state).writtenChunk.toList)
          (events ++ (chapterStep cfg (api (i + 1)) (i + 1) sig state).events) := by
      rw [runChaptersAux]
      simp only [hfatal, Bool.false_eq_true, if_false]
    rw [hrec, hchunk]
    simp only [Option.toList_some]
    obtain ⟨hd, hc⟩ := ih (i + 1)
      (chapterStep cfg (api (i + 1)) (i + 1) sig state).nextThoughtSignature
      (chapterStep cfg (api (i + 1)) (i + 1) sig state).state
      (chunks ++ [successBlock (fun c => api c 0) (i + 1)])
      (events ++ (chapterStep cfg (api (i + 1)) (i + 1) sig state).events)
    refine ⟨hd, ?_⟩
    rw [hc, map_range_shift]
    simp [List.append_assoc]

/-- C6: for every totalChapters T at least 1 and firstNewChapter f with
1 at most f at most T, the chapter loop performs exactly T - f + 1
chapter-generation iterations (ignoring internal retries) and then
terminates, one appended chunk per iteration; after a fully successful
run starting fresh (f equal 1) the output file consists of the preamble
followed by exactly T chapter blocks, the block of chapter N starting
with the header of chapter N, for N from 1 to T in increasing order. -/
theorem c6_loop (cfg : FullStoryConfig) (api : Int → Nat → GeminiAPIResponse)
    (h : ∀ c a, (api c a).Err = false) (totalChapters f : Int) (hT : 1 ≤ totalChapters)
    (hf1 : 1 ≤ f) (hfT : f ≤ totalChapters) (state : StoryProgressState)
    (hstate : state.FirstNewChapter = f) (timestamp abstractContent : List Char) :
    ((generateStoryChapters cfg api totalChapters state).isDone = true) ∧
    ((generateStoryChapters cfg api totalChapters state).fileChunks.length =
      (totalChapters - f + 1).toNat) ∧
    ((generateStoryChapters cfg api totalChapters state).fileChunks =
      (List.range (totalChapters - f + 1).toNat).map
        (fun k : Nat => successBlock (fun c => api c 0) (f + (k : Int)))) ∧
    (f = 1 →
      writeInitialStoryHeader timestamp abstractContent 0 ++
          (generateStoryChapters cfg api totalChapters state).fileChunks =
        storyPreamble timestamp abstractContent ::
          (List.range totalChapters.toNat).map
            (fun k : Nat => successBlock (fun c => api c 0) ((k : Int) + 1))) := by
  subst hstate
  obtain ⟨hd, hc⟩ := runChaptersAux_all_success cfg api totalChapters h
    ((totalChapters - (state.FirstNewChapter - 1)).toNat) (state.FirstNewChapter - 1)
    [] state [] []
  have hfuel : totalChapters - (state.FirstNewChapter - 1) =
      totalChapters - state.FirstNewChapter + 1 := by ring
  refine ⟨hd, ?_, ?_, ?_⟩
  · rw [generateStoryChapters, hc, hfuel]
    simp
  · rw [generateStoryChapters, hc, hfuel]
    simp only [List.nil_append]
    refine List.map_congr_left (fun k hk => ?_)
    congr 1
    ring
  · intro hF
    rw [generateStoryChapters, hc, hfuel, hF]
    simp only [List.nil_append, writeInitialStoryHeader, if_pos rfl]
    norm_num
    intro k hk
    congr 1
    ring

theorem c6_witness :
    ((1 : Int) ≤ 3 ∧ (1 : Int) ≤ 1 ∧
      ((⟨0, 0, 0, [], none, 0, 1, .createWrite⟩ : StoryProgressState).FirstNewChapter = 1)) ∧
    ((generateStoryChapters ⟨[], [], 5000, [], [], [], [], "plan".data⟩
        (fun _ _ => ⟨"  Text.  ".data, "s".data, 3, 5, 1, false⟩) 3
        (⟨0, 0, 0, [], none, 0, 1, .createWrite⟩ : StoryProgressState)).isDone = true ∧
      (generateStoryChapters ⟨[], [], 5000, [], [], [], [], "plan".data⟩
        (fun _ _ => ⟨"  Text.  ".data, "s".data, 3, 5, 1, false⟩) 3
        (⟨0, 0, 0, [], none, 0, 1, .createWrite⟩ : StoryProgressState)).fileChunks.length = 3) := by
  have h := c6_loop ⟨[], [], 5000, [], [], [], [], "plan".data⟩
    (fun _ _ => ⟨"  Text.  ".data, "s".data, 3, 5, 1, false⟩) (fun _ _ => rfl) 3 1
    (by decide) (by decide) (by decide)
    (⟨0, 0, 0, [], none, 0, 1, .createWrite⟩ : StoryProgressState) rfl "ts".data "plan".data
  refine ⟨⟨by decide, by decide, rfl⟩, h.1, ?_⟩
  rw [h.2.1]
  decide

/-- C5: for a chapter whose API call fails on attempts 1 to 3 and
succeeds on attempt 4, the iteration retries with a fixed 2 second sleep
before each retry, writes that chapter header and trimmed text to the
output file exactly once, and adds exactly the successful attempt usage
(input tokens, output tokens, cost) to the accumulators; failed attempt
values are never accumulated. -/
theorem c5_retry (cfg : FullStoryConfig) (api : Int → Nat → GeminiAPIResponse) (c : Int)
    (h0 : (api c 0).Err = true) (h1 : (api c 1).Err = true) (h2 : (api c 2).Err = true)
    (h3 : (api c 3).Err = false) (sig : List Char) (state : StoryProgressState)
    (chunks : List (List Char)) (events : List StoryEvent) (totalChapters : Int) :
    ((chapterStep cfg (api c) c sig state).fatal = false) ∧
    ((chapterStep cfg (api c) c sig state).writtenChunk =
      some (chapterHeader c ++ (trimSpace (api c 3).GeneratedText ++ "\n\n".data))) ∧
    ((chapterStep cfg (api c) c sig state).state.AccumulatedInputTokens =
      state.AccumulatedInputTokens + (api c 3).InputTokens) ∧
    ((chapterStep cfg (api c) c sig state).state.AccumulatedOutputTokens =
      state.AccumulatedOutputTokens + (api c 3).OutputTokens) ∧
    ((chapterStep cfg (api c) c sig state).state.AccumulatedCost =
      state.AccumulatedCost + (api c 3).Cost) ∧
    ((chapterStep cfg (api c) c sig state).events =
      [StoryEvent.callAttempt c 0, StoryEvent.sleepSeconds 2, StoryEvent.callAttempt c 1,
        StoryEvent.sleepSeconds 2, StoryEvent.callAttempt c 2, StoryEvent.sleepSeconds 2,
        StoryEvent.callAttempt c 3, StoryEvent.sleepSeconds 1]) ∧
    (runChaptersAux cfg api totalChapters 1 (c - 1) sig state chunks events =
      StoryRunResult.done (chapterStep cfg (api c) c sig state).state
        (chunks ++ [chapterHeader c ++ (trimSpace (api c 3).GeneratedText ++ "\n\n".data)])
        (events ++ (chapterStep cfg (api c) c sig state).events)) := by
  have hloop := chapterRetryLoop_all_attempts c (api c) h0 h1 h2
  have hfatal : (chapterStep cfg (api c) c sig state).fatal = false := by
    simp [chapterStep, hloop, h3]
  have hchunk : (chapterStep cfg (api c) c sig state).writtenChunk =
      some (chapterHeader c ++ (trimSpace (api c 3).GeneratedText ++ "\n\n".data)) := by
    simp [chapterStep, hloop, h3]
  have hc1 : c - 1 + 1 = c := by ring
  refine ⟨hfatal, hchunk, ?_, ?_, ?_, ?_, ?_⟩
  · simp [chapterStep, hloop, h3]
  · simp [chapterStep, hloop, h3]
  · simp [chapterStep, hloop, h3]
  · simp [chapterStep, hloop, h3]
  · rw [runChaptersAux]
    simp only [hc1, hfatal, Bool.false_eq_true, if_false, hchunk, Option.toList_some]
    rw [runChaptersAux]

theorem c5_witness :
    (((fun (_ : Int) (a : Nat) => if a = 3 then
        (⟨" Ch text ".data, "s".data, 7, 11, 2, false⟩ : GeminiAPIResponse)
      else ⟨[], [], 4, 9, 5, true⟩) 2 0).Err = true ∧
      ((fun (_ : Int) (a : Nat) => if a = 3 then
        (⟨" Ch text ".data, "s".data, 7, 11, 2, false⟩ : GeminiAPIResponse)
      else ⟨[], [], 4, 9, 5, true⟩) 2 3).Err = false) ∧
    ((chapterStep ⟨[], [], 5000, [], [], [], [], []⟩
        ((fun (_ : Int) (a : Nat) => if a = 3 then
          (⟨" Ch text ".data, "s".data, 7, 11, 2, false⟩ : GeminiAPIResponse)
        else ⟨[], [], 4, 9, 5, true⟩) 2) 2 []
        (⟨100, 200, 3, [], none, 0, 1, .createWrite⟩ : StoryProgressState)).events =
      [StoryEvent.callAttempt 2 0, StoryEvent.sleepSeconds 2, StoryEvent.callAttempt 2 1,
        StoryEvent.sleepSeconds 2, StoryEvent.callAttempt 2 2, StoryEvent.sleepSeconds 2,
        StoryEvent.callAttempt 2 3, StoryEvent.sleepSeconds 1] ∧
      (chapterStep ⟨[], [], 5000, [], [], [], [], []⟩
        ((fun (_ : Int) (a : Nat) => if a = 3 then
          (⟨" Ch text ".data, "s".data, 7, 11, 2, false⟩ : GeminiAPIResponse)
        else ⟨[], [], 4, 9, 5, true⟩) 2) 2 []
        (⟨100, 200, 3, [], none, 0, 1, .createWrite⟩ : StoryProgressState)).state.AccumulatedInputTokens = 107) := by
  have h := c5_retry ⟨[], [], 5000, [], [], [], [], []⟩
    (fun (_ : Int) (a : Nat) => if a = 3 then
      (⟨" Ch text ".data, "s".data, 7, 11, 2, false⟩ : GeminiAPIResponse)
    else ⟨[], [], 4, 9, 5, true⟩) 2 rfl rfl rfl rfl []
    (⟨100, 200, 3, [], none, 0, 1, .createWrite⟩ : StoryProgressState) [] [] 9
  exact ⟨⟨rfl, rfl⟩, h.2.2.2.2.2.1, h.2.2.1⟩

/-- C2: when all 4 generation attempts for a chapter fail (the first
attempt plus 3 retries), the process terminates fatally at that point:
log.Fatalf exits the process, the loop result is a fatal exit carrying
the output file exactly as it was before the chapter, the accumulators
are unchanged, and the prepared placeholder chapter text is never
written. -/
theorem c2_fatal_exhausted (cfg : FullStoryConfig) (api : Int → Nat → GeminiAPIResponse) (c : Int)
    (h0 : (api c 0).Err = true) (h1 : (api c 1).Err = true) (h2 : (api c 2).Err = true)
    (h3 : (api c 3).Err = true) (sig : List Char) (state : StoryProgressState)
    (chunks : List (List Char)) (events : List StoryEvent) (fuel : Nat)
    (totalChapters : Int) :
    ((chapterStep cfg (api c) c sig state).fatal = true) ∧
    ((chapterStep cfg (api c) c sig state).writtenChunk = none) ∧
    ((chapterStep cfg (api c) c sig state).state = state) ∧
    (runChaptersAux cfg api totalChapters (fuel + 1) (c - 1) sig state chunks events =
      StoryRunResult.fatalExit c state chunks
        (events ++ [StoryEvent.callAttempt c 0, StoryEvent.sleepSeconds 2,
          StoryEvent.callAttempt c 1, StoryEvent.sleepSeconds 2, StoryEvent.callAttempt c 2,
          StoryEvent.sleepSeconds 2, StoryEvent.callAttempt c 3])) ∧
    ((runChaptersAux cfg api totalChapters (fuel + 1) (c - 1) sig state chunks
        events).isDone = false) ∧
    ((runChaptersAux cfg api totalChapters (fuel + 1) (c - 1) sig state chunks
        events).fileChunks = chunks) := by
  have hloop := chapterRetryLoop_all_attempts c (api c) h0 h1 h2
  have hfatal : (chapterStep cfg (api c) c sig state).fatal = true := by
    simp [chapterStep, hloop, h3]
  have hst : (chapterStep cfg (api c) c sig state).state = state := by
    simp [chapterStep, hloop, h3]
  have hevents : (chapterStep cfg (api c) c sig state).events =
      [StoryEvent.callAttempt c 0, StoryEvent.sleepSeconds 2, StoryEvent.callAttempt c 1,
        StoryEvent.sleepSeconds 2, StoryEvent.callAttempt c 2, StoryEvent.sleepSeconds 2,
        StoryEvent.callAttempt c 3] := by
    simp [chapterStep, hloop, h3]
  have hc1 : c - 1 + 1 = c := by ring
  have hrun : runChaptersAux cfg api totalChapters (fuel + 1) (c - 1) sig state chunks events =
      StoryRunResult.fatalExit c state chunks
        (events ++ [StoryEvent.callAttempt c 0, StoryEvent.sleepSeconds 2,
          StoryEvent.callAttempt c 1, StoryEvent.sleepSeconds 2, StoryEvent.callAttempt c 2,
          StoryEvent.sleepSeconds 2, StoryEvent.callAttempt c 3]) := by
    rw [runChaptersAux]
    simp only [hc1, hfatal, if_true, hst, hevents]
  refine ⟨hfatal, ?_, hst, hrun, ?_, ?_⟩
  · simp [chapterStep, hloop, h3]
  · rw [hrun]
    rfl
  · rw [hrun]
    rfl

theorem c2_witness :
    (((fun (_ : Int) (_ : Nat) => (⟨[], [], 4, 9, 5, true⟩ : GeminiAPIResponse)) 1 0).Err =
        true ∧
      ((fun (_ : Int) (_ : Nat) => (⟨[], [], 4, 9, 5, true⟩ : GeminiAPIResponse)) 1 3).Err =
        true) ∧
    (runChaptersAux ⟨[], [], 5000, [], [], [], [], []⟩
        (fun (_ : Int) (_ : Nat) => (⟨[], [], 4, 9, 5, true⟩ : GeminiAPIResponse)) 3 3 0 []
        (⟨0, 0, 0, [], none, 0, 1, .createWrite⟩ : StoryProgressState) [] [] =
      StoryRunResult.fatalExit 1 (⟨0, 0, 0, [], none, 0, 1, .createWrite⟩ : StoryProgressState)
        []
        [StoryEvent.callAttempt 1 0, StoryEvent.sleepSeconds 2, StoryEvent.callAttempt 1 1,
          StoryEvent.sleepSeconds 2, StoryEvent.callAttempt 1 2, StoryEvent.sleepSeconds 2,
          StoryEvent.callAttempt 1 3]) := by
  have h := c2_fatal_exhausted ⟨[], [], 5000, [], [], [], [], []⟩
    (fun (_ : Int) (_ : Nat) => (⟨[], [], 4, 9, 5, true⟩ : GeminiAPIResponse)) 1
    rfl rfl rfl rfl []
    (⟨0, 0, 0, [], none, 0, 1, .createWrite⟩ : StoryProgressState) [] [] 2 3
  refine ⟨⟨rfl, rfl⟩, ?_⟩
  have h4 := h.2.2.2.1
  norm_num at h4 ⊢
  exact h4
